import Mathlib

set_option maxRecDepth 8192

/-!
Verification development for the prompt-optimization service
(`app.py`: FastAPI endpoint `otimizar_prompt_api`, pydantic models
`PromptRequest` and `OtimizacaoResponse`, Gemini client initialization).

The Python code is shallowly embedded: JSON documents are an inductive
`JValue`; the JSON syntax accepted by Python's JSON machinery is modelled
by an executable fuel-indexed recursive-descent routine; pydantic's
`model_validate_json` and FastAPI's request-body validation are modelled
as explicit `Except`-returning functions; exceptions are values of an
inductive `PyErr`, and Python's nested `try`/`except` blocks in the
endpoint become explicit matches on those values.
-/

/-- A parsed JSON document.  Numbers keep their raw lexeme (no claim
inspects numeric values, so no numeric semantics is needed); object
members keep source order (Python builds a `dict` from them, where a
duplicated key keeps the last occurrence — see `jlookup`). -/
inductive JValue where
  | null
  | bool (b : Bool)
  | num (lexeme : String)
  | str (s : String)
  | arr (elements : List JValue)
  | obj (members : List (String × JValue))

/-- JSON whitespace skipping. -/
def skipWs : List Char → List Char
  | c :: cs => if c = ' ' ∨ c = '\t' ∨ c = '\n' ∨ c = '\r' then skipWs cs else c :: cs
  | [] => []

/-- Single-character JSON string escapes. -/
def escChar : Char → Option Char
  | '"' => some '"'
  | '\\' => some '\\'
  | '/' => some '/'
  | 'b' => some (Char.ofNat 8)
  | 'f' => some (Char.ofNat 12)
  | 'n' => some '\n'
  | 'r' => some '\r'
  | 't' => some '\t'
  | _ => none

/-- Hexadecimal digit value. -/
def hexVal (c : Char) : Option Nat :=
  if '0' ≤ c ∧ c ≤ '9' then some (c.toNat - 48)
  else if 'a' ≤ c ∧ c ≤ 'f' then some (c.toNat - 87)
  else if 'A' ≤ c ∧ c ≤ 'F' then some (c.toNat - 55)
  else none

/-- Body of a JSON string after the opening quote: returns the decoded
characters and the input after the closing quote.  Raw control
characters are rejected (Python's strict decoding). -/
def parseStringChars : List Char → Option (List Char × List Char)
  | [] => none
  | '"' :: rest => some ([], rest)
  | '\\' :: 'u' :: a :: b :: c :: d :: rest =>
    match hexVal a, hexVal b, hexVal c, hexVal d with
    | some ha, some hb, some hc, some hd =>
      match parseStringChars rest with
      | some (s, r) => some (Char.ofNat (((ha * 16 + hb) * 16 + hc) * 16 + hd) :: s, r)
      | none => none
    | _, _, _, _ => none
  | '\\' :: e :: rest =>
    match escChar e with
    | some c =>
      match parseStringChars rest with
      | some (s, r) => some (c :: s, r)
      | none => none
    | none => none
  | c :: rest =>
    if c.toNat < 32 then none
    else
      match parseStringChars rest with
      | some (s, r) => some (c :: s, r)
      | none => none

/-- Fractional part of a JSON number (possibly empty). -/
def parseFracPart (cs : List Char) : Option (List Char × List Char) :=
  match cs with
  | '.' :: rest =>
    match rest.span Char.isDigit with
    | (ds, r) => if ds.isEmpty then none else some ('.' :: ds, r)
  | _ => some ([], cs)

/-- Exponent part of a JSON number (possibly empty). -/
def parseExpPart (cs : List Char) : Option (List Char × List Char) :=
  match cs with
  | c :: rest =>
    if c = 'e' ∨ c = 'E' then
      match rest with
      | s :: rest2 =>
        if s = '+' ∨ s = '-' then
          match rest2.span Char.isDigit with
          | (ds, r) => if ds.isEmpty then none else some (c :: s :: ds, r)
        else
          match rest.span Char.isDigit with
          | (ds, r) => if ds.isEmpty then none else some (c :: ds, r)
      | [] => none
    else some ([], cs)
  | [] => some ([], cs)

/-- Unsigned JSON number (JSON forbids leading zeros). -/
def parseNumberTail (cs : List Char) : Option (List Char × List Char) :=
  match cs.span Char.isDigit with
  | (ds, r) =>
    match ds with
    | [] => none
    | '0' :: _ :: _ => none
    | _ =>
      match parseFracPart r with
      | none => none
      | some (fs, r2) =>
        match parseExpPart r2 with
        | none => none
        | some (es, r3) => some (ds ++ fs ++ es, r3)

/-- JSON number, with optional leading minus. -/
def parseNumberChars (cs : List Char) : Option (List Char × List Char) :=
  match cs with
  | '-' :: rest =>
    match parseNumberTail rest with
    | some (ds, r) => some ('-' :: ds, r)
    | none => none
  | _ => parseNumberTail cs

mutual

/-- JSON value at the head of the input (whitespace already skipped);
`fuel` bounds recursion depth and is decremented on every recursive
call, each of which first consumes at least one input character. -/
def parseValueF : Nat → List Char → Option (JValue × List Char)
  | 0, _ => none
  | fuel + 1, cs =>
    match cs with
    | '"' :: rest =>
      match parseStringChars rest with
      | some (s, r) => some (.str (String.mk s), r)
      | none => none
    | '\x7b' :: rest =>
      match skipWs rest with
      | '\x7d' :: r => some (.obj [], r)
      | cs2 => parseMembersF fuel cs2 []
    | '[' :: rest =>
      match skipWs rest with
      | ']' :: r => some (.arr [], r)
      | cs2 => parseElemsF fuel cs2 []
    | 't' :: 'r' :: 'u' :: 'e' :: rest => some (.bool true, rest)
    | 'f' :: 'a' :: 'l' :: 's' :: 'e' :: rest => some (.bool false, rest)
    | 'n' :: 'u' :: 'l' :: 'l' :: rest => some (.null, rest)
    | _ =>
      match parseNumberChars cs with
      | some (ds, r) => some (.num (String.mk ds), r)
      | none => none

/-- Members of a JSON object after the opening brace (input positioned
at a key, whitespace skipped); `acc` holds the members read so far. -/
def parseMembersF : Nat → List Char → List (String × JValue) → Option (JValue × List Char)
  | 0, _, _ => none
  | fuel + 1, cs, acc =>
    match cs with
    | '"' :: rest =>
      match parseStringChars rest with
      | none => none
      | some (k, r1) =>
        match skipWs r1 with
        | ':' :: r2 =>
          match parseValueF fuel (skipWs r2) with
          | none => none
          | some (v, r3) =>
            match skipWs r3 with
            | ',' :: r4 => parseMembersF fuel (skipWs r4) (acc ++ [(String.mk k, v)])
            | '\x7d' :: r4 => some (.obj (acc ++ [(String.mk k, v)]), r4)
            | _ => none
        | _ => none
    | _ => none

/-- Elements of a JSON array after the opening bracket (input positioned
at an element, whitespace skipped); `acc` holds the elements read so far. -/
def parseElemsF : Nat → List Char → List JValue → Option (JValue × List Char)
  | 0, _, _ => none
  | fuel + 1, cs, acc =>
    match parseValueF fuel cs with
    | none => none
    | some (v, r) =>
      match skipWs r with
      | ',' :: r2 => parseElemsF fuel (skipWs r2) (acc ++ [v])
      | ']' :: r2 => some (.arr (acc ++ [v]), r2)
      | _ => none

end

/-- JSON parsing of a whole document, as performed by Python's JSON
machinery (`json.loads` / pydantic's internal parser): one value,
surrounded by optional whitespace, consuming the entire input.
`s.length + 1` fuel suffices because every recursive call consumes
at least one character first. -/
def parseJson (s : String) : Option JValue :=
  match parseValueF (s.length + 1) (skipWs s.data) with
  | some (v, rest) => if (skipWs rest).isEmpty then some v else none
  | none => none

/-- Key lookup in a parsed JSON object, as seen by Python code: the
members become a `dict`, so a duplicated key keeps its LAST occurrence. -/
def jlookup (members : List (String × JValue)) (key : String) : Option JValue :=
  List.lookup key members.reverse

/-- A dict-shaped JSON value (a JSON object), as pydantic's `dict` type
accepts it. -/
def asDict : JValue → Option (List (String × JValue))
  | .obj members => some members
  | _ => none

/-- Substring helpers (for stating that a diagnostic detail includes a
given text): does `needle` occur at the head of `hay`? -/
def matchHere : List Char → List Char → Bool
  | [], _ => true
  | _ :: _, [] => false
  | n :: ns, h :: hs => n = h && matchHere ns hs

/-- Does `needle` occur anywhere in `hay`? -/
def listHasSub (needle : List Char) : List Char → Bool
  | [] => matchHere needle []
  | h :: hs => matchHere needle (h :: hs) || listHasSub needle hs

/-- Does string `hay` contain `needle` as a contiguous substring? -/
def strHasSub (hay needle : String) : Bool :=
  listHasSub needle.data hay.data

/-!
## Data model (`app.py`, section 4: pydantic models)
-/

/-- Source `class PromptRequest(BaseModel)`: the POST request body, with the
single required field `prompt_original: str`. -/
structure PromptRequest where
  prompt_original : String

/-- Source `class OtimizacaoResponse(BaseModel)`: the response shape the model
output must validate against.  `dicas_aplicadas: list[dict]` — each
entry must be a dict, with NO constraint on its keys or values (the
source comment notes a more detailed pydantic model was not used). -/
structure OtimizacaoResponse where
  prompt_otimizado : String
  dicas_aplicadas : List (List (String × JValue))

/-!
## Python exceptions reaching the endpoint's handlers
-/

/-- The exceptions that flow through the endpoint's `try`/`except`
blocks, as values.  `validationError` is pydantic's `ValidationError`;
`jsonDecodeError` is `json.JSONDecodeError`; `apiError` is any
exception raised by the Gemini API call; `httpException` is
FastAPI's `HTTPException` (an `Exception` subclass, so the outer
`except Exception` catches it too).  `pyErrStr` is Python's `str(e)`
on each (for `HTTPException`, Starlette defines
its string form as the status code, a colon and a space, and the detail). -/
inductive PyErr where
  | validationError (message : String)
  | jsonDecodeError (message : String)
  | apiError (message : String)
  | httpException (status : Nat) (detail : String)

def pyErrStr : PyErr → String
  | .validationError m => m
  | .jsonDecodeError m => m
  | .apiError m => m
  | .httpException status d => toString status ++ ": " ++ d

/-!
## pydantic validation of the model output

`OtimizacaoResponse.model_validate_json` (pydantic v2) parses the JSON
itself and raises `ValidationError` — never `json.JSONDecodeError` —
for every failure, including syntactically invalid JSON.  The message
texts below abbreviate pydantic's messages to the failing field and the
error kind; the exception CLASS in each case is the modelled fact.
-/

def jsonInvalidMsg : String := "Invalid JSON: expected value [type=json_invalid]"

def notObjectMsg : String :=
  "Input should be a valid dictionary or instance of OtimizacaoResponse [type=model_type]"

def missingPromptMsg : String := "prompt_otimizado: Field required [type=missing]"

def promptTypeMsg : String :=
  "prompt_otimizado: Input should be a valid string [type=string_type]"

def missingDicasMsg : String := "dicas_aplicadas: Field required [type=missing]"

def dicasListMsg : String :=
  "dicas_aplicadas: Input should be a valid list [type=list_type]"

def dicasDictMsg : String :=
  "dicas_aplicadas: Input should be a valid dictionary [type=dict_type]"

/-- Validation of the `dicas_aplicadas` entries against `list[dict]`:
every element must be a dict (arbitrary contents allowed). -/
def mapDicts : List JValue → Option (List (List (String × JValue)))
  | [] => some []
  | x :: xs =>
    match asDict x, mapDicts xs with
    | some d, some ds => some (d :: ds)
    | _, _ => none

/-- Field-level validation of a parsed JSON object against
`OtimizacaoResponse`.  Extra keys are ignored (pydantic's default
`extra="ignore"`); `prompt_otimizado` must be a JSON string (pydantic
v2 does not coerce numbers to `str`); `dicas_aplicadas` must be a JSON
array whose elements are all objects. -/
def validateOtimizacao (members : List (String × JValue)) :
    Except String OtimizacaoResponse :=
  match jlookup members "prompt_otimizado" with
  | none => .error missingPromptMsg
  | some (.str p) =>
    match jlookup members "dicas_aplicadas" with
    | none => .error missingDicasMsg
    | some (.arr xs) =>
      match mapDicts xs with
      | some ds => .ok ⟨p, ds⟩
      | none => .error dicasDictMsg
    | some _ => .error dicasListMsg
  | some _ => .error promptTypeMsg

/-- Model of `OtimizacaoResponse.model_validate_json(json_output)`: parse the
text as JSON and validate the result; every failure is a pydantic
`ValidationError`. -/
def model_validate_json (json_output : String) : Except PyErr OtimizacaoResponse :=
  match parseJson json_output with
  | none => .error (.validationError jsonInvalidMsg)
  | some (.obj members) =>
    match validateOtimizacao members with
    | .ok r => .ok r
    | .error m => .error (.validationError m)
  | some _ => .error (.validationError notObjectMsg)

/-!
## The external generation collaborator and module-level state
-/

/-- Model of `types.GenerateContentConfig(system_instruction=..., response_mime_type=...)`. -/
structure GenerateContentConfig where
  system_instruction : String
  response_mime_type : String

/-- The outbound call `client.models.generate_content(model=..., contents=..., config=...)`. -/
structure GenRequest where
  model : String
  contents : List String
  config : GenerateContentConfig

/-- Outcome of the collaborator call: `success text` is a normal return
whose `.text` is `text`; `failure message` is a raised exception whose
`str` is `message` (auth, quota, network, service-side error). -/
inductive CollabResult where
  | success (text : String)
  | failure (message : String)

/-- A generation collaborator, as a (deterministic) function of the
outbound request. -/
def Collaborator : Type := GenRequest → CollabResult

/-- The module-level globals the endpoint reads.  `client` is the
outcome of the startup initialization (`None` when `genai.Client()`
raised).  The endpoint writes no global, which the state-passing
embedding makes explicit. -/
structure ModuleState where
  client : Option Collaborator

/-- Source constant `MODEL_NAME = 'gemini-2.5-flash'`. -/
def MODEL_NAME : String := "gemini-2.5-flash"

/-- Source constant `SYSTEM_INSTRUCTION`: the fixed process-wide instruction string. -/
def SYSTEM_INSTRUCTION : String :=
  "\nVocê é um Otimizador de Prompts de IA especialista.\nSua tarefa é analisar o prompt do usuário, melhorá-lo significativamente e retornar a análise em um formato JSON estrito.\nA otimização deve se concentrar em:\n1.  **Clareza e Especificidade:** Remover ambiguidades.\n2.  **Definição de Papel (Persona):** Atribuir um papel (ex: especialista, jornalista, professor) para o modelo.\n3.  **Formato de Saída:** Solicitar explicitamente um formato (ex: lista, tabela, JSON, etc.).\n4.  **Restrições:** Adicionar limites de tom, tamanho ou complexidade.\n\n## FORMATO DE SAÍDA OBRIGATÓRIO (JSON):\n\nSua resposta DEVE ser um objeto JSON formatado EXATAMENTE assim:\n\n\x7b\n  \"prompt_otimizado\": \"O novo prompt completo e melhorado, pronto para uso.\",\n  \"dicas_aplicadas\": [\n    \x7b\n      \"estrategia\": \"Nome da Estratégia Aplicada (ex: Definição de Papel)\",\n      \"detalhes\": \"Explicação detalhada do que foi alterado e o porquê.\"\n    \x7d,\n    // Adicione mais objetos para cada otimização aplicada\n  ]\n\x7d\n\nGaranta que o JSON seja válido e que não haja nenhum texto ou explicação fora da estrutura JSON.\n"

/-- Startup (`app.py` lines 22-32): `client = genai.Client()` inside
`try`/`except`; on any initialization failure the error is printed and
`client = None` — the process keeps running in a degraded state. -/
def initClient (attempt : Except String Collaborator) : Option Collaborator :=
  match attempt with
  | .ok c => some c
  | .error _ => none

/-!
## The endpoint `otimizar_prompt_api`
-/

/-- Result of one endpoint call as FastAPI surfaces it: either the
validated response body, or an `HTTPException`'s status and detail. -/
inductive HandlerResult where
  | ok (resp : OtimizacaoResponse)
  | httpError (status : Nat) (detail : String)

/-- Detail of the 503 raised when `client is None`. -/
def detail503 : String :=
  "Serviço indisponível: O cliente Gemini não foi inicializado corretamente. Verifique sua chave de API."

/-- Python slice of the first 200 characters. -/
def take200 (s : String) : String := String.mk (s.data.take 200)

/-- Detail raised by the `except json.JSONDecodeError` handler. -/
def malformedDetail (json_output : String) : String :=
  "O modelo retornou uma string que não é um JSON válido. Conteúdo: " ++ take200 json_output ++ "..."

/-- Marker sentence of the schema-mismatch handler's detail. -/
def schemaMarker : String :=
  "O JSON retornado pelo modelo não corresponde à estrutura esperada."

/-- Detail raised by the inner generic `except Exception as e` handler. -/
def schemaDetail (e : String) : String :=
  schemaMarker ++ " Erro de validação: " ++ e

/-- Detail raised by the OUTER `except Exception as e` handler. -/
def geminiDetail (e : String) : String :=
  "Erro na chamada da API Gemini: " ++ e

/-- The body of `otimizar_prompt_api` as a function of the module
globals it reads.  The value `attempt` is what reaches the outer
`try`'s boundary: the validated return value, or the exception that
propagates to the outer `except Exception` — including the
`HTTPException`s raised by the two INNER handlers, which are raised
inside the outer `try` and are therefore caught and re-wrapped by it. -/
def otimizarCore (client : Option Collaborator) (request : PromptRequest) : HandlerResult :=
  match client with
  | none => .httpError 503 detail503
  | some generate =>
    let attempt : Except PyErr OtimizacaoResponse :=
      match generate ⟨MODEL_NAME, [request.prompt_original],
          ⟨SYSTEM_INSTRUCTION, "application/json"⟩⟩ with
      | .failure message => .error (.apiError message)
      | .success json_output =>
        match model_validate_json json_output with
        | .ok resultado_validado => .ok resultado_validado
        | .error (.jsonDecodeError _) =>
          .error (.httpException 500 (malformedDetail json_output))
        | .error e =>
          .error (.httpException 500 (schemaDetail (pyErrStr e)))
    match attempt with
    | .ok resultado_validado => .ok resultado_validado
    | .error e => .httpError 500 (geminiDetail (pyErrStr e))

/-- The endpoint, with the module globals threaded explicitly: the
source assigns no global inside the handler, so the state is returned
unchanged. -/
def otimizar_prompt_api (st : ModuleState) (request : PromptRequest) :
    HandlerResult × ModuleState :=
  (otimizarCore st.client request, st)

/-!
## FastAPI request validation

Before the handler runs, FastAPI validates the parsed JSON body against
`PromptRequest`; any failure is a 422 response (details abbreviated to
the failing field and error kind, as for pydantic above).  pydantic v2
does not coerce numbers to `str`, and `prompt_original` has no length
or whitespace constraint, so ANY JSON string — including `""` — is
accepted.
-/

def bodyNotObjectMsg : String := "Input should be a valid dictionary [type=model_type]"

def missingOriginalMsg : String := "prompt_original: Field required [type=missing]"

def originalTypeMsg : String :=
  "prompt_original: Input should be a valid string [type=string_type]"

def validate_request_body (body : JValue) : Except (Nat × String) PromptRequest :=
  match asDict body with
  | none => .error (422, bodyNotObjectMsg)
  | some members =>
    match jlookup members "prompt_original" with
    | some (.str s) => .ok ⟨s⟩
    | some _ => .error (422, originalTypeMsg)
    | none => .error (422, missingOriginalMsg)

/-- The full POST route: FastAPI request validation, then the handler. -/
def handle_post_otimizar (st : ModuleState) (body : JValue) :
    HandlerResult × ModuleState :=
  match validate_request_body body with
  | .error (status, d) => (.httpError status d, st)
  | .ok request => otimizar_prompt_api st request

/-!
## Statement-side helpers and concrete fixtures
-/

/-- The `prompt_original` member of a JSON body, if the body is an object. -/
def promptFieldOf : JValue → Option JValue
  | .obj members => jlookup members "prompt_original"
  | _ => none

/-- Is this (optional) JSON value a JSON string? -/
def isStrValue : Option JValue → Bool
  | some (.str _) => true
  | _ => false

/-- Is this JSON value an array all of whose elements are objects
(the shape `list[dict]` accepts)? -/
def isListOfDicts : JValue → Bool
  | .arr xs => xs.all (fun x => (asDict x).isSome)
  | _ => false

/-- Is this validation outcome a raised `json.JSONDecodeError`? -/
def isJsonDecodeErr : Except PyErr OtimizacaoResponse → Bool
  | .error (.jsonDecodeError _) => true
  | _ => false

/-- Is the outcome of a call one of the typed results — a response body
or an `HTTPException` with status 503 or 500? -/
def isTypedOutcome : HandlerResult → Bool
  | .ok _ => true
  | .httpError 503 _ => true
  | .httpError 500 _ => true
  | .httpError _ _ => false

/-- The spec's example of a well-shaped collaborator reply. -/
def haikuPrompt : String :=
  "Write a haiku about the sea, as a marine biologist, in exactly 3 lines."

def haikuJson : String :=
  "\x7b\"prompt_otimizado\": \"Write a haiku about the sea, as a marine biologist, in exactly 3 lines.\", \"dicas_aplicadas\": [\x7b\"estrategia\": \"Persona\", \"detalhes\": \"Added a role.\"\x7d]\x7d"

/-!
## Helper lemmas
-/

/-- Looking a key up past an appended member with a different key. -/
theorem jlookup_append_ne (members : List (String × JValue)) (k : String) (v : JValue)
    (key : String) (h : (key == k) = false) :
    jlookup (members ++ [(k, v)]) key = jlookup members key := by
  unfold jlookup
  rw [List.reverse_append]
  show List.lookup key ((k, v) :: members.reverse) = _
  simp [List.lookup, h]

/-- Success of `mapDicts` is exactly stripping `JValue.obj` off every
element, preserving order. -/
theorem mapDicts_map_obj (xs : List JValue) (ds : List (List (String × JValue)))
    (h : mapDicts xs = some ds) : xs = List.map JValue.obj ds := by
  induction xs generalizing ds with
  | nil =>
    unfold mapDicts at h
    injection h with h
    subst h
    rfl
  | cons x xs ih =>
    unfold mapDicts at h
    cases hx : asDict x with
    | none => rw [hx] at h; simp at h
    | some d =>
      rw [hx] at h
      cases hm : mapDicts xs with
      | none => rw [hm] at h; simp at h
      | some rest =>
        rw [hm] at h
        simp only [Option.some.injEq] at h
        subst h
        cases x with
        | obj m =>
          simp only [asDict, Option.some.injEq] at hx
          subst hx
          simp only [List.map_cons]
          rw [ih rest hm]
        | null => simp [asDict] at hx
        | bool b => simp [asDict] at hx
        | num n => simp [asDict] at hx
        | str s => simp [asDict] at hx
        | arr es => simp [asDict] at hx

/-- If some element of the array is not an object, `mapDicts` fails. -/
theorem mapDicts_none_of_not_all (xs : List JValue)
    (h : xs.all (fun x => (asDict x).isSome) = false) : mapDicts xs = none := by
  induction xs with
  | nil => simp at h
  | cons x xs ih =>
    rw [List.all_cons] at h
    cases hx : asDict x with
    | none => cases hm : mapDicts xs <;> simp [mapDicts, hx, hm]
    | some d =>
      rw [hx] at h
      simp only [Option.isSome_some, Bool.true_and] at h
      have hm := ih h
      simp [mapDicts, hx, hm]

/-- Any pydantic `ValidationError` raised inside the inner `try` is
turned into a 500 `HTTPException` by the inner generic handler, which
the OUTER `except Exception` then catches and re-wraps. -/
theorem core_validation_error (st : ModuleState) (g : Collaborator) (req : PromptRequest)
    (txt m : String)
    (hc : st.client = some g)
    (hg : g ⟨MODEL_NAME, [req.prompt_original], ⟨SYSTEM_INSTRUCTION, "application/json"⟩⟩ =
      .success txt)
    (hmv : model_validate_json txt = .error (.validationError m)) :
    (otimizar_prompt_api st req).1 =
      .httpError 500 (geminiDetail ("500: " ++ schemaDetail m)) := by
  obtain ⟨c⟩ := st
  have hc2 : c = some g := hc
  subst hc2
  show otimizarCore (some g) req = _
  unfold otimizarCore
  simp only [hg, hmv]
  rfl

/-!
## Claim theorems
-/

/-- C1 (code evaluated at the failing input): when the collaborator
returns the plain text `not json at all`, the endpoint does NOT produce
the `MalformedOutput` diagnostic with the 200-character excerpt.
pydantic v2's `model_validate_json` raises `ValidationError` even for
syntactically invalid JSON, so the `except json.JSONDecodeError`
handler never fires (third conjunct: it is unreachable for every
collaborator text); the failure instead takes the generic
schema-mismatch handler, whose 500 `HTTPException` is then itself
caught by the outer `except Exception` and re-wrapped.  The final
detail carries the schema-mismatch message, and the `MalformedOutput`
message text occurs nowhere in it. -/
theorem plain_text_output_gets_schema_wrapped_error :
    (otimizar_prompt_api ⟨some (fun _ => .success "not json at all")⟩ ⟨"hello"⟩).1 =
      .httpError 500 (geminiDetail ("500: " ++ schemaDetail jsonInvalidMsg)) ∧
    strHasSub (geminiDetail ("500: " ++ schemaDetail jsonInvalidMsg))
      "O modelo retornou uma string que não é um JSON válido" = false ∧
    ∀ s, isJsonDecodeErr (model_validate_json s) = false := by
  refine ⟨rfl, rfl, ?_⟩
  intro s
  unfold model_validate_json
  cases hp : parseJson s with
  | none => rfl
  | some v =>
    cases v with
    | obj members =>
      cases hv : validateOtimizacao members with
      | ok r => simp [hv, isJsonDecodeErr]
      | error msg => simp [hv, isJsonDecodeErr]
    | null => rfl
    | bool b => rfl
    | num n => rfl
    | str t => rfl
    | arr es => rfl

/-- C2 counterexample: a request body whose `prompt_original` is the
EMPTY string passes request validation (`prompt_original: str` has no
emptiness or whitespace constraint), and the call proceeds to the
collaborator and can even succeed — refuting "the empty string prompt
always yields InvalidRequest". -/
theorem empty_prompt_accepted :
    validate_request_body (.obj [("prompt_original", .str "")]) = .ok ⟨""⟩ ∧
    (handle_post_otimizar ⟨some (fun _ => .success haikuJson)⟩
        (.obj [("prompt_original", .str "")])).1 =
      .ok ⟨haikuPrompt, [[("estrategia", .str "Persona"), ("detalhes", .str "Added a role.")]]⟩ :=
  ⟨rfl, rfl⟩

/-- C2 (amended): request validation fails with a 422 client error
exactly when the body has no `prompt_original` member that is a JSON
string — absent field, non-string value, or non-object body.  An empty
or whitespace-only string, however, is accepted. -/
theorem missing_or_nonstring_prompt_rejected (body : JValue)
    (h : isStrValue (promptFieldOf body) = false) :
    ∃ d, validate_request_body body = .error (422, d) := by
  cases body with
  | obj members =>
    cases hl : jlookup members "prompt_original" with
    | none => exact ⟨missingOriginalMsg, by simp [validate_request_body, asDict, hl]⟩
    | some v =>
      cases v with
      | str s =>
        have : isStrValue (promptFieldOf (.obj members)) = true := by
          simp [promptFieldOf, hl, isStrValue]
        rw [this] at h
        cases h
      | null => exact ⟨originalTypeMsg, by simp [validate_request_body, asDict, hl]⟩
      | bool b => exact ⟨originalTypeMsg, by simp [validate_request_body, asDict, hl]⟩
      | num n => exact ⟨originalTypeMsg, by simp [validate_request_body, asDict, hl]⟩
      | arr es => exact ⟨originalTypeMsg, by simp [validate_request_body, asDict, hl]⟩
      | obj ms => exact ⟨originalTypeMsg, by simp [validate_request_body, asDict, hl]⟩
  | null => exact ⟨bodyNotObjectMsg, rfl⟩
  | bool b => exact ⟨bodyNotObjectMsg, rfl⟩
  | num n => exact ⟨bodyNotObjectMsg, rfl⟩
  | str s => exact ⟨bodyNotObjectMsg, rfl⟩
  | arr es => exact ⟨bodyNotObjectMsg, rfl⟩

/-- C2 witness: a body whose `prompt_original` is the JSON number `1`
is rejected with a 422. -/
theorem missing_or_nonstring_prompt_rejected_witness :
    ∃ d, validate_request_body (.obj [("prompt_original", .num "1")]) = .error (422, d) :=
  missing_or_nonstring_prompt_rejected (.obj [("prompt_original", .num "1")]) rfl

/-- C6: if client initialization failed at startup (any error), the
process keeps running with `client = None`, and EVERY subsequent call
fails fast with the 503 service-unavailable detail, returning the
module state unchanged; no collaborator exists to be invoked. -/
theorem uninitialized_client_always_503 (errmsg : String) (req : PromptRequest) :
    otimizar_prompt_api ⟨initClient (.error errmsg)⟩ req =
      (.httpError 503 detail503, ⟨initClient (.error errmsg)⟩) := rfl

/-- C7: when the collaborator invocation raises (auth, quota, network,
service-side error), the outer `except Exception` maps it to a 500
whose detail carries the underlying error message, and the module
state is returned unchanged (the embedding applies the collaborator
exactly once and mutates nothing). -/
theorem upstream_failure_reported (st : ModuleState) (g : Collaborator)
    (req : PromptRequest) (msg : String)
    (hc : st.client = some g)
    (hg : g ⟨MODEL_NAME, [req.prompt_original], ⟨SYSTEM_INSTRUCTION, "application/json"⟩⟩ =
      .failure msg) :
    otimizar_prompt_api st req = (.httpError 500 (geminiDetail msg), st) := by
  obtain ⟨c⟩ := st
  have hc2 : c = some g := hc
  subst hc2
  show (otimizarCore (some g) req, _) = _
  unfold otimizarCore
  simp only [hg]
  rfl

/-- C7 witness: a simulated network failure. -/
theorem upstream_failure_reported_witness :
    otimizar_prompt_api ⟨some (fun _ => .failure "simulated network failure")⟩ ⟨"hi"⟩ =
      (.httpError 500 (geminiDetail "simulated network failure"),
        ⟨some (fun _ => .failure "simulated network failure")⟩) :=
  upstream_failure_reported _ _ _ _ rfl rfl

/-- C9: a call leaves the module state exactly as it found it, and a
second call on that state with the same prompt produces the identical
output — the endpoint is a pure function of the input and the
(deterministic) collaborator, with no hidden state between calls. -/
theorem calls_stateless_and_reproducible (st : ModuleState) (req : PromptRequest) :
    (otimizar_prompt_api st req).2 = st ∧
    (otimizar_prompt_api (otimizar_prompt_api st req).2 req).1 =
      (otimizar_prompt_api st req).1 :=
  ⟨rfl, rfl⟩

/-- C3 counterexample: a collaborator reply whose `dicas_aplicadas`
entry is an object with keys OTHER than `estrategia`/`detalhes`
(`\x7b"foo": "bar"\x7d`) is NOT rejected: `list[dict]` places no
constraint on the dict's keys or value types, so the call SUCCEEDS and
returns that entry verbatim — refuting both "validation fails with
SchemaMismatch" and "never returned as a successful response". -/
theorem arbitrary_dict_tips_accepted :
    (otimizar_prompt_api ⟨some (fun _ => .success
        "\x7b\"prompt_otimizado\": \"x\", \"dicas_aplicadas\": [\x7b\"foo\": \"bar\"\x7d]\x7d")⟩
      ⟨"hi"⟩).1 = .ok ⟨"x", [[("foo", .str "bar")]]⟩ := rfl

/-- C3 (amended): with a well-typed `prompt_otimizado`, validation of
the reply fails — surfacing as a 500 whose detail contains the
schema-mismatch message — exactly when `dicas_aplicadas` is not a list
of dicts (not a list at all, or some entry not an object); entries
that ARE objects are accepted whatever their keys and value types. -/
theorem tips_not_list_of_dicts_schema_error (st : ModuleState) (g : Collaborator)
    (req : PromptRequest) (txt p : String) (members : List (String × JValue)) (v : JValue)
    (hc : st.client = some g)
    (hg : g ⟨MODEL_NAME, [req.prompt_original], ⟨SYSTEM_INSTRUCTION, "application/json"⟩⟩ =
      .success txt)
    (hp : parseJson txt = some (.obj members))
    (hpo : jlookup members "prompt_otimizado" = some (.str p))
    (hd : jlookup members "dicas_aplicadas" = some v)
    (hbad : isListOfDicts v = false) :
    ∃ d, (otimizar_prompt_api st req).1 = .httpError 500 d ∧
      strHasSub d schemaMarker = true := by
  cases v with
  | arr xs =>
    have hnone : mapDicts xs = none := mapDicts_none_of_not_all xs hbad
    have hmv : model_validate_json txt = .error (.validationError dicasDictMsg) := by
      unfold model_validate_json
      rw [hp]
      simp only [validateOtimizacao, hpo, hd, hnone]
    exact ⟨geminiDetail ("500: " ++ schemaDetail dicasDictMsg),
      core_validation_error st g req txt dicasDictMsg hc hg hmv, rfl⟩
  | null =>
    have hmv : model_validate_json txt = .error (.validationError dicasListMsg) := by
      unfold model_validate_json
      rw [hp]
      simp only [validateOtimizacao, hpo, hd]
    exact ⟨geminiDetail ("500: " ++ schemaDetail dicasListMsg),
      core_validation_error st g req txt dicasListMsg hc hg hmv, rfl⟩
  | bool b =>
    have hmv : model_validate_json txt = .error (.validationError dicasListMsg) := by
      unfold model_validate_json
      rw [hp]
      simp only [validateOtimizacao, hpo, hd]
    exact ⟨geminiDetail ("500: " ++ schemaDetail dicasListMsg),
      core_validation_error st g req txt dicasListMsg hc hg hmv, rfl⟩
  | num n =>
    have hmv : model_validate_json txt = .error (.validationError dicasListMsg) := by
      unfold model_validate_json
      rw [hp]
      simp only [validateOtimizacao, hpo, hd]
    exact ⟨geminiDetail ("500: " ++ schemaDetail dicasListMsg),
      core_validation_error st g req txt dicasListMsg hc hg hmv, rfl⟩
  | str s =>
    have hmv : model_validate_json txt = .error (.validationError dicasListMsg) := by
      unfold model_validate_json
      rw [hp]
      simp only [validateOtimizacao, hpo, hd]
    exact ⟨geminiDetail ("500: " ++ schemaDetail dicasListMsg),
      core_validation_error st g req txt dicasListMsg hc hg hmv, rfl⟩
  | obj ms =>
    have hmv : model_validate_json txt = .error (.validationError dicasListMsg) := by
      unfold model_validate_json
      rw [hp]
      simp only [validateOtimizacao, hpo, hd]
    exact ⟨geminiDetail ("500: " ++ schemaDetail dicasListMsg),
      core_validation_error st g req txt dicasListMsg hc hg hmv, rfl⟩

/-- C3 witness: `dicas_aplicadas` given as the plain string `"x"`
(not a list) is rejected with a 500 carrying the schema message. -/
theorem tips_not_list_of_dicts_schema_error_witness :
    ∃ d, (otimizar_prompt_api ⟨some (fun _ => .success
        "\x7b\"prompt_otimizado\": \"x\", \"dicas_aplicadas\": \"x\"\x7d")⟩
      ⟨"hi"⟩).1 = .httpError 500 d ∧ strHasSub d schemaMarker = true :=
  tips_not_list_of_dicts_schema_error _ _ _ _ "x" _ (.str "x") rfl rfl rfl rfl rfl rfl

/-- C4: a reply that is valid JSON (an object) but omits a required
field — `dicas_aplicadas` absent, or `prompt_otimizado` absent or not
a string — fails: pydantic raises a `ValidationError` whose detail `m`
is the validation error for the offending field, the inner generic
handler wraps it in the schema-mismatch detail, and the outer handler
re-wraps that 500.  The final detail includes both the schema-mismatch
message and the validation error detail `m`. -/
theorem missing_field_schema_error (st : ModuleState) (g : Collaborator)
    (req : PromptRequest) (txt : String) (members : List (String × JValue))
    (hc : st.client = some g)
    (hg : g ⟨MODEL_NAME, [req.prompt_original], ⟨SYSTEM_INSTRUCTION, "application/json"⟩⟩ =
      .success txt)
    (hp : parseJson txt = some (.obj members))
    (homit : isStrValue (jlookup members "prompt_otimizado") = false ∨
      jlookup members "dicas_aplicadas" = none) :
    ∃ m, validateOtimizacao members = .error m ∧
      (otimizar_prompt_api st req).1 =
        .httpError 500 (geminiDetail ("500: " ++ schemaDetail m)) ∧
      strHasSub (geminiDetail ("500: " ++ schemaDetail m)) m = true ∧
      strHasSub (geminiDetail ("500: " ++ schemaDetail m)) schemaMarker = true := by
  have step : ∀ m : String, validateOtimizacao members = .error m →
      (otimizar_prompt_api st req).1 =
        .httpError 500 (geminiDetail ("500: " ++ schemaDetail m)) := by
    intro m hv
    have hmv : model_validate_json txt = .error (.validationError m) := by
      unfold model_validate_json
      rw [hp]
      simp only [hv]
    exact core_validation_error st g req txt m hc hg hmv
  rcases homit with hbad | hmiss
  · cases hpo : jlookup members "prompt_otimizado" with
    | none =>
      have hv : validateOtimizacao members = .error missingPromptMsg := by
        simp only [validateOtimizacao, hpo]
      exact ⟨missingPromptMsg, hv, step _ hv, rfl, rfl⟩
    | some v =>
      cases v with
      | str s => rw [hpo] at hbad; simp [isStrValue] at hbad
      | null =>
        have hv : validateOtimizacao members = .error promptTypeMsg := by
          simp only [validateOtimizacao, hpo]
        exact ⟨promptTypeMsg, hv, step _ hv, rfl, rfl⟩
      | bool b =>
        have hv : validateOtimizacao members = .error promptTypeMsg := by
          simp only [validateOtimizacao, hpo]
        exact ⟨promptTypeMsg, hv, step _ hv, rfl, rfl⟩
      | num n =>
        have hv : validateOtimizacao members = .error promptTypeMsg := by
          simp only [validateOtimizacao, hpo]
        exact ⟨promptTypeMsg, hv, step _ hv, rfl, rfl⟩
      | arr es =>
        have hv : validateOtimizacao members = .error promptTypeMsg := by
          simp only [validateOtimizacao, hpo]
        exact ⟨promptTypeMsg, hv, step _ hv, rfl, rfl⟩
      | obj ms =>
        have hv : validateOtimizacao members = .error promptTypeMsg := by
          simp only [validateOtimizacao, hpo]
        exact ⟨promptTypeMsg, hv, step _ hv, rfl, rfl⟩
  · cases hpo : jlookup members "prompt_otimizado" with
    | none =>
      have hv : validateOtimizacao members = .error missingPromptMsg := by
        simp only [validateOtimizacao, hpo]
      exact ⟨missingPromptMsg, hv, step _ hv, rfl, rfl⟩
    | some v =>
      cases v with
      | str s =>
        have hv : validateOtimizacao members = .error missingDicasMsg := by
          simp only [validateOtimizacao, hpo, hmiss]
        exact ⟨missingDicasMsg, hv, step _ hv, rfl, rfl⟩
      | null =>
        have hv : validateOtimizacao members = .error promptTypeMsg := by
          simp only [validateOtimizacao, hpo]
        exact ⟨promptTypeMsg, hv, step _ hv, rfl, rfl⟩
      | bool b =>
        have hv : validateOtimizacao members = .error promptTypeMsg := by
          simp only [validateOtimizacao, hpo]
        exact ⟨promptTypeMsg, hv, step _ hv, rfl, rfl⟩
      | num n =>
        have hv : validateOtimizacao members = .error promptTypeMsg := by
          simp only [validateOtimizacao, hpo]
        exact ⟨promptTypeMsg, hv, step _ hv, rfl, rfl⟩
      | arr es =>
        have hv : validateOtimizacao members = .error promptTypeMsg := by
          simp only [validateOtimizacao, hpo]
        exact ⟨promptTypeMsg, hv, step _ hv, rfl, rfl⟩
      | obj ms =>
        have hv : validateOtimizacao members = .error promptTypeMsg := by
          simp only [validateOtimizacao, hpo]
        exact ⟨promptTypeMsg, hv, step _ hv, rfl, rfl⟩

/-- C4 witness: the spec's own example reply, which omits
`dicas_aplicadas`. -/
theorem missing_field_schema_error_witness :
    ∃ m, validateOtimizacao [("prompt_otimizado", JValue.str "x")] = .error m ∧
      (otimizar_prompt_api ⟨some (fun _ => .success "\x7b\"prompt_otimizado\": \"x\"\x7d")⟩
        ⟨"hi"⟩).1 = .httpError 500 (geminiDetail ("500: " ++ schemaDetail m)) ∧
      strHasSub (geminiDetail ("500: " ++ schemaDetail m)) m = true ∧
      strHasSub (geminiDetail ("500: " ++ schemaDetail m)) schemaMarker = true :=
  missing_field_schema_error _ _ _ _ _ rfl rfl rfl (Or.inr rfl)

/-- C5: whatever the module state (client initialized or not) and
whatever the collaborator does — any reply text, or any raised error —
every call terminates in one of the typed outcomes: a validated
response body, the 503 fail-fast, or a handled 500; no exception
escapes unhandled. -/
theorem no_unhandled_fault (st : ModuleState) (req : PromptRequest) :
    isTypedOutcome (otimizar_prompt_api st req).1 = true := by
  obtain ⟨c⟩ := st
  cases c with
  | none => rfl
  | some g =>
    show isTypedOutcome (otimizarCore (some g) req) = true
    unfold otimizarCore
    cases hg : g ⟨MODEL_NAME, [req.prompt_original], ⟨SYSTEM_INSTRUCTION, "application/json"⟩⟩ with
    | failure m => simp [hg, isTypedOutcome]
    | success txt =>
      cases hmv : model_validate_json txt with
      | ok r => simp [hg, hmv, isTypedOutcome]
      | error e => cases e <;> simp [hg, hmv, isTypedOutcome]

/-- C8: when the reply parses as a JSON object whose
`prompt_otimizado` is a string and whose `dicas_aplicadas` is an array
of objects, the call succeeds with exactly those field values, and the
returned tip list is the array's entries in their original order
(`xs = List.map JValue.obj ds`). -/
theorem valid_shape_returns_exact_fields (st : ModuleState) (g : Collaborator)
    (req : PromptRequest) (txt p : String) (members : List (String × JValue))
    (xs : List JValue) (ds : List (List (String × JValue)))
    (hc : st.client = some g)
    (hg : g ⟨MODEL_NAME, [req.prompt_original], ⟨SYSTEM_INSTRUCTION, "application/json"⟩⟩ =
      .success txt)
    (hp : parseJson txt = some (.obj members))
    (hpo : jlookup members "prompt_otimizado" = some (.str p))
    (hd : jlookup members "dicas_aplicadas" = some (.arr xs))
    (hds : mapDicts xs = some ds) :
    (otimizar_prompt_api st req).1 = .ok ⟨p, ds⟩ ∧ xs = List.map JValue.obj ds := by
  have hmv : model_validate_json txt = .ok ⟨p, ds⟩ := by
    unfold model_validate_json
    rw [hp]
    simp only [validateOtimizacao, hpo, hd, hds]
  refine ⟨?_, mapDicts_map_obj xs ds hds⟩
  obtain ⟨c⟩ := st
  have hc2 : c = some g := hc
  subst hc2
  show otimizarCore (some g) req = _
  unfold otimizarCore
  simp only [hg, hmv]

/-- C8 witness: the spec's haiku example, returned with exactly those
field values and the single tip in order. -/
theorem valid_shape_returns_exact_fields_witness :
    (otimizar_prompt_api ⟨some (fun _ => .success haikuJson)⟩
        ⟨"Write a haiku about the sea"⟩).1 =
      .ok ⟨haikuPrompt, [[("estrategia", .str "Persona"), ("detalhes", .str "Added a role.")]]⟩ ∧
    [JValue.obj [("estrategia", .str "Persona"), ("detalhes", .str "Added a role.")]] =
      List.map JValue.obj
        [[("estrategia", JValue.str "Persona"), ("detalhes", JValue.str "Added a role.")]] :=
  valid_shape_returns_exact_fields _ _ _ haikuJson haikuPrompt _ _ _ rfl rfl rfl rfl rfl rfl

/-- C10: appending a member with any key other than the two required
ones leaves validation of the reply object unchanged — extra top-level
fields are silently ignored (pydantic's default), never causing a
failure, and the response type carries only the two declared fields. -/
theorem extra_field_ignored (members : List (String × JValue)) (k : String) (v : JValue)
    (h1 : ("prompt_otimizado" == k) = false)
    (h2 : ("dicas_aplicadas" == k) = false) :
    validateOtimizacao (members ++ [(k, v)]) = validateOtimizacao members := by
  unfold validateOtimizacao
  rw [jlookup_append_ne members k v "prompt_otimizado" h1,
    jlookup_append_ne members k v "dicas_aplicadas" h2]

/-- C10 witness: an extra `"temperature"` member is ignored and the
reply still validates to exactly the two declared fields. -/
theorem extra_field_ignored_witness :
    validateOtimizacao ([("prompt_otimizado", .str "x"), ("dicas_aplicadas", .arr [])] ++
        [("temperature", .num "1")]) =
      validateOtimizacao [("prompt_otimizado", .str "x"), ("dicas_aplicadas", .arr [])] ∧
    validateOtimizacao [("prompt_otimizado", .str "x"), ("dicas_aplicadas", .arr [])] =
      .ok ⟨"x", []⟩ :=
  ⟨extra_field_ignored [("prompt_otimizado", .str "x"), ("dicas_aplicadas", .arr [])]
    "temperature" (.num "1") rfl rfl, rfl⟩
